import Mathlib

/-!
Shallow embedding of the provider-gateway core of the AI-Proxy repository
(src/client.py and src/config.py), together with theorems settling the
specification claims about it.

Python strings are modelled as lists of characters (`PyStr`), machine
floats used only as wall-clock timestamps are modelled as rationals, and
fallible upstream I/O is modelled by explicit outcome parameters.
-/

namespace AIProxy

/-- Python strings are modelled as lists of characters. -/
abbrev PyStr := List Char

/-- Python `model.split(sep, 1)` when the separator occurs: the text before
the first separator together with the remainder after it
(src/client.py line 28). -/
def splitOnce (sep : Char) : PyStr → PyStr × PyStr
  | [] => ([], [])
  | c :: rest =>
    if c = sep then ([], rest)
    else
      let r := splitOnce sep rest
      (c :: r.1, r.2)

/-- `ProviderClient.parse_model_name` (src/client.py lines 17-30): if the
model name contains a '/', split once on the first one; otherwise the
provider part is empty and the model is returned unchanged. -/
def parse_model_name (model : PyStr) : PyStr × PyStr :=
  if model.contains '/' then splitOnce '/' model
  else ([], model)

theorem splitOnce_eq (sep : Char) :
    ∀ l : PyStr,
      splitOnce sep l = (l.takeWhile (· != sep), (l.dropWhile (· != sep)).tail)
  | [] => rfl
  | c :: rest => by
    by_cases h : c = sep
    · simp [splitOnce, h]
    · simp [splitOnce, h, splitOnce_eq sep rest]

/-- C9: `parse_model_name` splits on the first '/' only, returning the text
before the first '/' and the remainder after it; when the input contains no
'/', it returns the empty string together with the unchanged input; it is a
pure total function, and on the two concrete examples it gives
("acme","gpt-4") and ("","gpt-4"). -/
theorem C9_parse_model_name :
    (∀ m : PyStr, m.contains '/' = true →
        parse_model_name m = (m.takeWhile (· != '/'), (m.dropWhile (· != '/')).tail)) ∧
    (∀ m : PyStr, m.contains '/' = false → parse_model_name m = ([], m)) ∧
    parse_model_name "acme/gpt-4".toList = ("acme".toList, "gpt-4".toList) ∧
    parse_model_name "gpt-4".toList = ([], "gpt-4".toList) := by
  refine ⟨?_, ?_, by decide, by decide⟩
  · intro m h
    have h' : '/' ∈ m := by simpa using h
    simp [parse_model_name, h', splitOnce_eq]
  · intro m h
    have h' : '/' ∉ m := by simpa using h
    simp [parse_model_name, h']

/-- Witness for C9 at a concrete input with more than one '/': only the
first '/' splits. -/
theorem C9_parse_model_name_witness :
    parse_model_name "x/y/z".toList = ("x".toList, "y/z".toList) := by
  have h := C9_parse_model_name.1 "x/y/z".toList (by decide)
  rw [h]
  decide

/-- A raw model entry in a provider's `/models` discovery response, i.e.
one element of `data["data"]` (src/client.py lines 163-172).  Only the keys
the code reads are modelled; `owned_by` is present so that overwriting it
can be stated. -/
structure RawModel where
  id : Option PyStr
  model : Option PyStr
  object : Option PyStr
  created : Option Int
  owned_by : Option PyStr
deriving DecidableEq

/-- A normalized model entry as built by `_fetch_models_with_retry`
(src/client.py lines 167-172). -/
structure ModelInfo where
  id : PyStr
  object : PyStr
  created : Option Int
  owned_by : PyStr
deriving DecidableEq

/-- Normalization of one raw upstream entry (src/client.py lines 164-172):
the id is the provider name, '/', then `model.get('id', model.get('model', ''))`;
`owned_by` is overwritten with the provider name. -/
def normalize_model (provider_name : PyStr) (m : RawModel) : ModelInfo :=
  { id := provider_name ++ '/' :: (m.id.getD (m.model.getD [])),
    object := m.object.getD "model".toList,
    created := m.created,
    owned_by := provider_name }

/-- Outcome of one discovery attempt (`GET /models` followed by
`raise_for_status` and `response.json()`, src/client.py lines 157-159).
`success data` is a 2xx response with a parsed JSON body; `data` is `none`
when the body has no "data" key.  The three failure constructors are the
three except-branches of src/client.py lines 177-188. -/
inductive FetchOutcome
  | success (data : Option (List RawModel))
  | timeout
  | networkError
  | otherError
deriving DecidableEq

/-- What the retry loop observes of an attempt outcome: the code treats all
three exception kinds identically (log and fall through to the next
attempt). -/
def classifyOutcome : FetchOutcome → Option (Option (List RawModel))
  | .success data => some data
  | .timeout => none
  | .networkError => none
  | .otherError => none

/-- Instrumented result of `_fetch_models_with_retry`: the returned list,
how many attempts were made, and the backoff waits performed (in seconds,
in order). -/
structure RetryTrace where
  models : List ModelInfo
  attempts : ℕ
  waits : List ℕ
deriving DecidableEq

/-- The body of the `for attempt in range(max_retries)` loop of
`_fetch_models_with_retry` (src/client.py lines 145-198), recursing over
the remaining attempt indices.  Before attempt `n` with `n > 0` it waits
`min(2 ** n, 10)` seconds; a success returns the normalized models and ends
the loop; any of the three exception kinds falls through to the next
attempt; an exhausted list returns the empty model list. -/
def retryGo (provider_name : PyStr) (outcomes : ℕ → FetchOutcome) :
    List ℕ → RetryTrace
  | [] => { models := [], attempts := 0, waits := [] }
  | attempt :: rest =>
    let wait : List ℕ := if 0 < attempt then [min (2 ^ attempt) 10] else []
    match classifyOutcome (outcomes attempt) with
    | some data =>
      { models := (data.getD []).map (normalize_model provider_name),
        attempts := 1, waits := wait }
    | none =>
      let r := retryGo provider_name outcomes rest
      { models := r.models, attempts := r.attempts + 1, waits := wait ++ r.waits }

/-- `ProviderClient._fetch_models_with_retry` (src/client.py lines 136-198)
with its default `max_retries = 3`, as a function of the per-attempt
upstream outcomes. -/
def fetch_models_with_retry (provider_name : PyStr)
    (outcomes : ℕ → FetchOutcome) (max_retries : ℕ := 3) : RetryTrace :=
  retryGo provider_name outcomes (List.range max_retries)

/-- The per-provider cache fields of `ProviderClient`
(src/client.py lines 53-55). -/
structure ClientState where
  models_cache : Option (List ModelInfo)
  last_fetch_time : Option ℚ
  fetch_failed : Bool
deriving DecidableEq

/-- Python truthiness of the `Optional[float]` field `_last_fetch_time`
as used in `if self._fetch_failed and self._last_fetch_time:`
(src/client.py line 112): `None` and `0.0` are falsy. -/
def optTimeTruthy : Option ℚ → Bool
  | none => false
  | some t => if t = 0 then false else true

/-- Instrumented result of `get_models`: the returned list, the state of
the cache fields afterwards, and whether the fetch logic
(`_fetch_models_with_retry`, an upstream discovery call) was executed. -/
structure GetModelsResult where
  models : List ModelInfo
  state : ClientState
  fetched : Bool
deriving DecidableEq

/-- `ProviderClient.get_models` (src/client.py lines 97-134) as a function
of the prior cache state, the current wall-clock time, and the list that
`_fetch_models_with_retry` would return if it were called. -/
def get_models (st : ClientState) (force_refresh : Bool) (current_time : ℚ)
    (fetch_result : List ModelInfo) : GetModelsResult :=
  let refetch : GetModelsResult :=
    { models := fetch_result,
      state := { models_cache := some fetch_result,
                 last_fetch_time := some current_time,
                 fetch_failed := fetch_result.isEmpty },
      fetched := true }
  if force_refresh = false ∧ st.models_cache ≠ none then
    let cache := st.models_cache.getD []
    if st.fetch_failed = true ∧ optTimeTruthy st.last_fetch_time = true then
      if current_time - (st.last_fetch_time.getD 0) > 10 then refetch
      else { models := cache, state := st, fetched := false }
    else { models := cache, state := st, fetched := false }
  else refetch

theorem retryGo_attempts_le (pn : PyStr) (o : ℕ → FetchOutcome) :
    ∀ l : List ℕ, (retryGo pn o l).attempts ≤ l.length
  | [] => le_refl _
  | a :: rest => by
    cases h : classifyOutcome (o a) with
    | some d => simp [retryGo, h]
    | none =>
      simp only [retryGo, h, List.length_cons]
      exact Nat.succ_le_succ (retryGo_attempts_le pn o rest)

theorem retryGo_waits (pn : PyStr) (o : ℕ → FetchOutcome) :
    ∀ l : List ℕ,
      (retryGo pn o l).waits =
        ((l.take (retryGo pn o l).attempts).filter (fun a => decide (0 < a))).map
          (fun n => min (2 ^ n) 10)
  | [] => rfl
  | a :: rest => by
    by_cases ha : 0 < a <;>
      cases h : classifyOutcome (o a) <;>
        simp [retryGo, h, ha, retryGo_waits pn o rest]

theorem retryGo_allfail (pn : PyStr) (o : ℕ → FetchOutcome) :
    ∀ l : List ℕ, (∀ a ∈ l, classifyOutcome (o a) = none) →
      (retryGo pn o l).models = [] ∧ (retryGo pn o l).attempts = l.length
  | [], _ => ⟨rfl, rfl⟩
  | a :: rest, h => by
    have ha : classifyOutcome (o a) = none := h a (by simp)
    have ih := retryGo_allfail pn o rest (fun b hb => h b (by simp [hb]))
    simp [retryGo, ha, ih.1, ih.2]

theorem retryGo_congr (pn : PyStr) (o1 o2 : ℕ → FetchOutcome) :
    ∀ l : List ℕ, (∀ a ∈ l, classifyOutcome (o1 a) = classifyOutcome (o2 a)) →
      retryGo pn o1 l = retryGo pn o2 l
  | [], _ => rfl
  | a :: rest, h => by
    have ha : classifyOutcome (o1 a) = classifyOutcome (o2 a) := h a (by simp)
    have ih := retryGo_congr pn o1 o2 rest (fun b hb => h b (by simp [hb]))
    cases h2 : classifyOutcome (o2 a) <;> simp [retryGo, ha, h2, ih]

theorem retryGo_mem_normalized (pn : PyStr) (o : ℕ → FetchOutcome) :
    ∀ l : List ℕ, ∀ m ∈ (retryGo pn o l).models, ∃ raw, m = normalize_model pn raw
  | [], m, hm => by simp [retryGo] at hm
  | a :: rest, m, hm => by
    cases h : classifyOutcome (o a) with
    | some d =>
      simp [retryGo, h] at hm
      obtain ⟨raw, _, hraw⟩ := hm
      exact ⟨raw, hraw.symm⟩
    | none =>
      simp only [retryGo, h] at hm
      exact retryGo_mem_normalized pn o rest m hm

theorem get_models_fetched_eq (st : ClientState) (force : Bool) (cur : ℚ)
    (fr : List ModelInfo) (h : (get_models st force cur fr).fetched = true) :
    get_models st force cur fr =
      { models := fr,
        state := { models_cache := some fr, last_fetch_time := some cur,
                   fetch_failed := fr.isEmpty },
        fetched := true } := by
  unfold get_models at h ⊢
  split_ifs at h ⊢ <;> simp_all

theorem get_models_cached_eq (st : ClientState) (force : Bool) (cur : ℚ)
    (fr : List ModelInfo) (h : (get_models st force cur fr).fetched = false) :
    get_models st force cur fr =
      { models := st.models_cache.getD [], state := st, fetched := false } := by
  unfold get_models at h ⊢
  split_ifs at h ⊢ <;> simp_all

/-- C3: every refetch of the model list makes at most 3 upstream attempts;
before each attempt `n` with `n > 0` the loop waits `min(2 ^ n, 10)`
seconds; timeouts, network errors, and all other exceptions are treated
alike (the trace depends only on the per-attempt success data); exhausting
all attempts yields the empty list after exactly 3 attempts; and whenever
`get_models` runs the refetch, it updates the cache, the last-fetch
timestamp, and the failure flag from the refetch result. -/
theorem C3_fetch_models_with_retry (pn : PyStr) (o o2 : ℕ → FetchOutcome) :
    (fetch_models_with_retry pn o).attempts ≤ 3 ∧
    (fetch_models_with_retry pn o).waits =
      ((List.range (fetch_models_with_retry pn o).attempts).filter
        (fun a => decide (0 < a))).map (fun n => min (2 ^ n) 10) ∧
    ((∀ a, classifyOutcome (o a) = none) →
      (fetch_models_with_retry pn o).models = [] ∧
      (fetch_models_with_retry pn o).attempts = 3) ∧
    ((∀ a, classifyOutcome (o a) = classifyOutcome (o2 a)) →
      fetch_models_with_retry pn o = fetch_models_with_retry pn o2) ∧
    (∀ (st : ClientState) (force : Bool) (cur : ℚ),
      (get_models st force cur (fetch_models_with_retry pn o).models).fetched = true →
      (get_models st force cur (fetch_models_with_retry pn o).models).state =
        { models_cache := some (fetch_models_with_retry pn o).models,
          last_fetch_time := some cur,
          fetch_failed := (fetch_models_with_retry pn o).models.isEmpty }) := by
  have hle : (fetch_models_with_retry pn o).attempts ≤ 3 := by
    simpa using retryGo_attempts_le pn o (List.range 3)
  refine ⟨hle, ?_, ?_, ?_, ?_⟩
  · have hw := retryGo_waits pn o (List.range 3)
    have htake : List.take (retryGo pn o (List.range 3)).attempts (List.range 3) =
        List.range (retryGo pn o (List.range 3)).attempts := by
      rw [List.take_range]
      exact congrArg List.range (Nat.min_eq_left hle)
    rw [htake] at hw
    exact hw
  · intro hall
    simpa [fetch_models_with_retry] using
      retryGo_allfail pn o (List.range 3) (fun a _ => hall a)
  · intro hsame
    simpa [fetch_models_with_retry] using
      retryGo_congr pn o o2 (List.range 3) (fun a _ => hsame a)
  · intro st force cur h
    rw [get_models_fetched_eq st force cur _ h]

/-- Witness for C3: with every attempt timing out, the fetch makes exactly
3 attempts, waits 2 then 4 seconds, returns the empty list, and is
indistinguishable from the all-network-error run; a subsequent
`get_models` on an empty state records the empty cache, the timestamp and
the failure flag. -/
theorem C3_fetch_models_with_retry_witness :
    (fetch_models_with_retry "acme".toList (fun _ => FetchOutcome.timeout)).models = [] ∧
    (fetch_models_with_retry "acme".toList (fun _ => FetchOutcome.timeout)).attempts = 3 ∧
    (fetch_models_with_retry "acme".toList (fun _ => FetchOutcome.timeout)).waits = [2, 4] ∧
    fetch_models_with_retry "acme".toList (fun _ => FetchOutcome.timeout) =
      fetch_models_with_retry "acme".toList (fun _ => FetchOutcome.networkError) ∧
    (get_models { models_cache := none, last_fetch_time := none, fetch_failed := false }
        false 100 (fetch_models_with_retry "acme".toList (fun _ => FetchOutcome.timeout)).models).state =
      { models_cache := some [], last_fetch_time := some 100, fetch_failed := true } := by
  have h := C3_fetch_models_with_retry "acme".toList
    (fun _ => FetchOutcome.timeout) (fun _ => FetchOutcome.networkError)
  obtain ⟨-, hw, hall, hcongr, hupd⟩ := h
  have hm := hall (fun a => rfl)
  refine ⟨hm.1, hm.2, ?_, hcongr (fun a => rfl), ?_⟩
  · rw [hw, hm.2]
    decide
  · have := hupd { models_cache := none, last_fetch_time := none, fetch_failed := false }
      false 100 (by rw [hm.1]; decide)
    rw [this, hm.1]
    decide

/-- A concrete model entry used in witnesses and counterexamples. -/
def sampleModel : ModelInfo :=
  { id := "acme/m1".toList, object := "model".toList, created := none,
    owned_by := "acme".toList }

/-- C2 as stated is false on the code: with a cache present, a prior
failure recorded at time 5, and the current time 15, at least 10 seconds
have elapsed since the recorded last-fetch timestamp, yet `get_models`
returns the cached (empty) failure result and performs no refetch, because
the code requires strictly more than 10 elapsed seconds
(src/client.py line 114: `if time_since_last > 10`). -/
theorem C2_counterexample :
    ((15 : ℚ) - 5 ≥ 10) ∧
    get_models ⟨some [], some 5, true⟩ false 15 [sampleModel] =
      { models := [], state := ⟨some [], some 5, true⟩, fetched := false } := by
  refine ⟨by norm_num, ?_⟩
  unfold get_models
  split_ifs with h1 h2 h3
  · exact absurd h3 (by norm_num)
  · rfl
  · exact absurd ⟨rfl, by simp [optTimeTruthy]⟩ h2
  · exact absurd ⟨rfl, by simp⟩ h1

/-- C2 (amended): with `force_refresh` false and a cache present, the
cached list is returned with no upstream fetch unless the failure flag is
set and strictly more than 10 seconds have elapsed since the recorded
(positive) last-fetch timestamp, in which case a live refetch is
performed; and two immediate successive calls never both fetch. -/
theorem C2_get_models_cache (st : ClientState) (c : List ModelInfo) (cur t : ℚ)
    (fr fr2 : List ModelInfo) :
    (st.models_cache = some c →
      ¬(st.fetch_failed = true ∧ optTimeTruthy st.last_fetch_time = true ∧
          cur - st.last_fetch_time.getD 0 > 10) →
      get_models st false cur fr = { models := c, state := st, fetched := false }) ∧
    (st.models_cache = some c → st.fetch_failed = true →
      st.last_fetch_time = some t → 0 < t → cur - t > 10 →
      (get_models st false cur fr).fetched = true ∧
      (get_models st false cur fr).models = fr) ∧
    ¬((get_models st false cur fr).fetched = true ∧
      (get_models (get_models st false cur fr).state false cur fr2).fetched = true) := by
  refine ⟨?_, ?_, ?_⟩
  · intro hc hnot
    unfold get_models
    split_ifs with h1 h2 h3
    · exact absurd ⟨h2.1, h2.2, h3⟩ hnot
    · simp [hc]
    · simp [hc]
    · exact absurd ⟨rfl, by simp [hc]⟩ h1
  · intro hc hf ht htpos helapsed
    have htruthy : optTimeTruthy st.last_fetch_time = true := by
      rw [ht]
      simp [optTimeTruthy, ne_of_gt htpos]
    unfold get_models
    split_ifs with h1 h2 h3
    · exact ⟨rfl, rfl⟩
    · exact absurd helapsed (by simpa [ht] using h3)
    · exact absurd ⟨hf, htruthy⟩ h2
    · exact absurd ⟨rfl, by simp [hc]⟩ h1
  · rintro ⟨h1, h2⟩
    rw [get_models_fetched_eq st false cur fr h1] at h2
    unfold get_models at h2
    split_ifs at h2 with ha hb hc
    all_goals first
      | exact absurd ⟨rfl, by simp⟩ ha
      | exact absurd hc (by norm_num)

/-- Witness for C2 (amended): a failed cache recorded at time 5 is
refetched at time 16 (11 seconds later), a healthy cache is served
directly, and two immediate calls fetch at most once. -/
theorem C2_get_models_cache_witness :
    (get_models ⟨some [], some 5, true⟩ false 16 [sampleModel]).fetched = true ∧
    get_models ⟨some [sampleModel], some 5, false⟩ false 16 [] =
      { models := [sampleModel], state := ⟨some [sampleModel], some 5, false⟩,
        fetched := false } := by
  constructor
  · exact ((C2_get_models_cache ⟨some [], some 5, true⟩ [] 16 5 [sampleModel] []).2.1
      rfl rfl rfl (by norm_num) (by norm_num)).1
  · exact (C2_get_models_cache ⟨some [sampleModel], some 5, false⟩ [sampleModel]
      16 5 [] []).1 rfl (by simp)

/-- C10: whenever `get_models` performs a refetch, the recorded failure
flag equals emptiness of the fetched list (src/client.py line 132); in
particular a refetch that returns zero models is recorded as a failure,
and a subsequent non-forced call within the 10-second window serves the
cache without fetching, exactly as after an exhausted-retry failure. -/
theorem C10_fetch_failed_invariant (st : ClientState) (force : Bool) (cur cur2 : ℚ)
    (fr fr2 : List ModelInfo) :
    ((get_models st force cur fr).fetched = true →
      (get_models st force cur fr).state.fetch_failed =
        (get_models st force cur fr).models.isEmpty ∧
      (get_models st force cur fr).models = fr) ∧
    ((get_models st force cur fr).fetched = true → fr = [] →
      (get_models st force cur fr).state.fetch_failed = true ∧
      (cur2 - cur ≤ 10 →
        (get_models (get_models st force cur fr).state false cur2 fr2).fetched = false)) := by
  constructor
  · intro h
    rw [get_models_fetched_eq st force cur fr h]
    exact ⟨rfl, rfl⟩
  · intro h hfr
    rw [get_models_fetched_eq st force cur fr h]
    subst hfr
    refine ⟨rfl, ?_⟩
    intro hwin
    unfold get_models
    split_ifs with h1 h2 h3
    · exact absurd h3 (by simp; linarith)
    · rfl
    · rfl
    · exact absurd ⟨rfl, by simp⟩ h1

/-- Witness for C10: a discovery run whose every attempt succeeds with a
present but empty "data" array yields zero models, and the refetch records
the failure flag; a call 10 seconds later still serves the cache. -/
theorem C10_fetch_failed_invariant_witness :
    (get_models ⟨none, none, false⟩ false 100
        (fetch_models_with_retry "acme".toList
          (fun _ => FetchOutcome.success (some []))).models).state.fetch_failed = true ∧
    (get_models
        (get_models ⟨none, none, false⟩ false 100
          (fetch_models_with_retry "acme".toList
            (fun _ => FetchOutcome.success (some []))).models).state
        false 110 []).fetched = false := by
  have h := (C10_fetch_failed_invariant ⟨none, none, false⟩ false 100 110
    (fetch_models_with_retry "acme".toList (fun _ => FetchOutcome.success (some []))).models
    []).2 (by simp [get_models]) (by decide)
  exact ⟨h.1, h.2 (by norm_num)⟩

/-- `Config.is_model_supported` (src/config.py lines 251-268).  The Python
regex engine is an oracle parameter `searchIC`, modelling
`re.search(pattern, model_id, re.IGNORECASE)`: `none` models the
`re.error` raised by an invalid pattern (the except-branch that skips the
pattern, lines 263-265), `some b` a completed case-insensitive search.
An empty configured pattern list allows every model. -/
def is_model_supported (searchIC : PyStr → PyStr → Option Bool)
    (supported_models : List PyStr) (model_id : PyStr) : Bool :=
  if supported_models.isEmpty then true
  else supported_models.any (fun p => (searchIC p model_id).getD false)

/-- `Config.filter_models` (src/config.py lines 270-282): with no
configured patterns every model is returned, otherwise only those whose id
is supported. -/
def filter_models (searchIC : PyStr → PyStr → Option Bool)
    (supported_models : List PyStr) (models : List ModelInfo) : List ModelInfo :=
  if supported_models.isEmpty then models
  else models.filter (fun m => is_model_supported searchIC supported_models m.id)

/-- The aggregation loop of `ModelManager.get_all_models`
(src/client.py lines 383-394): each per-provider result of
`asyncio.gather(..., return_exceptions=True)`, in provider registration
order, extends the accumulator when it is a non-empty list; empty lists
and exceptions are skipped. -/
def gatherStep (acc : List ModelInfo) (r : Except Unit (List ModelInfo)) :
    List ModelInfo :=
  match r with
  | .ok l => if l.isEmpty then acc else acc ++ l
  | .error _ => acc

def gather_models (results : List (Except Unit (List ModelInfo))) : List ModelInfo :=
  results.foldl gatherStep []

/-- `ModelManager.get_all_models` (src/client.py lines 362-402) as a
function of the per-provider discovery results; `cfg` is the configured
supported-model pattern list when a config object is present
(`if self.config: all_models = self.config.filter_models(all_models)`). -/
def get_all_models (searchIC : PyStr → PyStr → Option Bool)
    (cfg : Option (List PyStr))
    (results : List (Except Unit (List ModelInfo))) : List ModelInfo :=
  let all := gather_models results
  match cfg with
  | some supported => filter_models searchIC supported all
  | none => all

/-- The concatenation, in provider registration order, of the successful
providers' model lists. -/
def okJoin (results : List (Except Unit (List ModelInfo))) : List ModelInfo :=
  (results.filterMap
    (fun r =>
      match r with
      | .ok l => some l
      | .error _ => none)).flatten

theorem gather_models_go (results : List (Except Unit (List ModelInfo))) :
    ∀ acc : List ModelInfo,
      results.foldl gatherStep acc = acc ++ okJoin results := by
  induction results with
  | nil => intro acc; simp [okJoin]
  | cons r rest ih =>
    intro acc
    rw [List.foldl_cons]
    cases r with
    | ok l =>
      by_cases hl : l.isEmpty
      · have hnil : l = [] := by simpa using hl
        rw [show gatherStep acc (Except.ok l) = acc from by simp [gatherStep, hl], ih]
        simp [okJoin, hnil]
      · rw [show gatherStep acc (Except.ok l) = acc ++ l from by simp [gatherStep, hl], ih]
        simp [okJoin, List.append_assoc]
    | error e =>
      rw [show gatherStep acc (Except.error e) = acc from rfl, ih]
      simp [okJoin]

theorem gather_models_eq (results : List (Except Unit (List ModelInfo))) :
    gather_models results = okJoin results := by
  simpa [gather_models] using gather_models_go results []

theorem getD_false_eq_true (o : Option Bool) : o.getD false = true ↔ o = some true := by
  cases o <;> simp

theorem mem_get_all_models_sub (searchIC : PyStr → PyStr → Option Bool)
    (cfg : Option (List PyStr)) (results : List (Except Unit (List ModelInfo)))
    (m : ModelInfo) (hm : m ∈ get_all_models searchIC cfg results) :
    m ∈ okJoin results := by
  cases cfg with
  | none => simpa [get_all_models, gather_models_eq] using hm
  | some supported =>
    simp only [get_all_models, gather_models_eq, filter_models] at hm
    split_ifs at hm
    · exact hm
    · exact (List.mem_filter.mp hm).1

/-- C5: for every provider configuration and every outcome of the
per-provider discovery calls, `get_all_models` returns the concatenation
of the successful providers' model lists in registration order (a failing
branch is excluded, never aborts the aggregate — `gather_models` is total
on exception results), filtered by the allow-list: a model is kept iff
some configured pattern matches its id under the case-insensitive search
oracle; a pattern whose search raises `re.error` (oracle value `none`) is
skipped without failing; an empty pattern set — or an absent config —
keeps every model. -/
theorem C5_get_all_models (searchIC : PyStr → PyStr → Option Bool)
    (supported : List PyStr) (results : List (Except Unit (List ModelInfo))) :
    get_all_models searchIC (some supported) results =
      filter_models searchIC supported (okJoin results) ∧
    get_all_models searchIC (some []) results = okJoin results ∧
    get_all_models searchIC none results = okJoin results ∧
    (∀ m : ModelInfo,
      m ∈ get_all_models searchIC (some supported) results ↔
        m ∈ okJoin results ∧
          (supported = [] ∨ ∃ p ∈ supported, searchIC p m.id = some true)) ∧
    (∀ id : PyStr, supported ≠ [] → (∀ p ∈ supported, searchIC p id = none) →
      is_model_supported searchIC supported id = false) := by
  refine ⟨by simp [get_all_models, gather_models_eq], ?_, ?_, ?_, ?_⟩
  · simp [get_all_models, gather_models_eq, filter_models]
  · simp [get_all_models, gather_models_eq]
  · intro m
    simp only [get_all_models, gather_models_eq, filter_models]
    by_cases hsup : supported.isEmpty
    · have hnil : supported = [] := by simpa using hsup
      simp [hnil]
    · have hne : ¬supported = [] := by simpa using hsup
      rw [if_neg hsup, List.mem_filter]
      constructor
      · rintro ⟨h1, h2⟩
        refine ⟨h1, Or.inr ?_⟩
        rw [is_model_supported, if_neg hsup, List.any_eq_true] at h2
        obtain ⟨p, hp, hpd⟩ := h2
        exact ⟨p, hp, (getD_false_eq_true _).mp hpd⟩
      · rintro ⟨h1, h2 | h2⟩
        · exact absurd h2 hne
        · refine ⟨h1, ?_⟩
          rw [is_model_supported, if_neg hsup, List.any_eq_true]
          obtain ⟨p, hp, hps⟩ := h2
          exact ⟨p, hp, (getD_false_eq_true _).mpr hps⟩
  · intro id hne hall
    have hsup : ¬supported.isEmpty := by simpa using hne
    rw [is_model_supported, if_neg hsup]
    have hnotany : ¬(supported.any fun p => (searchIC p id).getD false) = true := by
      rw [List.any_eq_true]
      rintro ⟨p, hp, hpd⟩
      rw [hall p hp] at hpd
      simp at hpd
    simpa using hnotany

/-- Witness for C5: one provider fails, one succeeds with two models; the
aggregate is the successful provider's list; with pattern list matching
only one id it keeps exactly that model, and an oracle that raises on the
only pattern supports nothing. -/
theorem C5_get_all_models_witness :
    get_all_models (fun p id => some (p.isPrefixOf id)) none
      [Except.error (), Except.ok [sampleModel]] = [sampleModel] ∧
    (sampleModel ∈ get_all_models (fun p id => some (p.isPrefixOf id))
        (some ["acme/".toList]) [Except.error (), Except.ok [sampleModel]] ↔
      (sampleModel ∈ okJoin [Except.error (), Except.ok [sampleModel]] ∧
        (["acme/".toList] = [] ∨ ∃ p ∈ ["acme/".toList],
          some (p.isPrefixOf sampleModel.id) = some true))) ∧
    is_model_supported (fun _ _ => none) ["(".toList] "acme/m1".toList = false := by
  refine ⟨?_, ?_, ?_⟩
  · rw [(C5_get_all_models (fun p id => some (p.isPrefixOf id)) []
      [Except.error (), Except.ok [sampleModel]]).2.2.1]
    decide
  · exact (C5_get_all_models (fun p id => some (p.isPrefixOf id)) ["acme/".toList]
      [Except.error (), Except.ok [sampleModel]]).2.2.2.1 sampleModel
  · exact (C5_get_all_models (fun _ _ => none) ["(".toList] []).2.2.2.2
      "acme/m1".toList (by decide) (fun p _ => rfl)

/-- C8: every model entry produced by a successful discovery fetch has id
equal to the provider name, '/', and the upstream model id
(`model.get('id', model.get('model', ''))`), and `owned_by` equal to the
provider name regardless of what the upstream entry reported; hence every
model returned by `get_all_models` over per-provider fetch results has an
id starting with the provider's name followed by '/' and `owned_by` equal
to that provider's name, for some configured provider. -/
theorem C8_model_normalization :
    (∀ (pn : PyStr) (raw : RawModel),
      (normalize_model pn raw).id = pn ++ '/' :: (raw.id.getD (raw.model.getD [])) ∧
      (normalize_model pn raw).owned_by = pn) ∧
    (∀ (pn : PyStr) (o : ℕ → FetchOutcome) (m : ModelInfo),
      m ∈ (fetch_models_with_retry pn o).models →
      (∃ rest, m.id = pn ++ '/' :: rest) ∧ m.owned_by = pn) ∧
    (∀ (provs : List (PyStr × (ℕ → FetchOutcome)))
      (searchIC : PyStr → PyStr → Option Bool) (cfg : Option (List PyStr))
      (m : ModelInfo),
      m ∈ get_all_models searchIC cfg
            (provs.map (fun pr => Except.ok (fetch_models_with_retry pr.1 pr.2).models)) →
      ∃ pr ∈ provs, (∃ rest, m.id = pr.1 ++ '/' :: rest) ∧ m.owned_by = pr.1) := by
  have hfetch : ∀ (pn : PyStr) (o : ℕ → FetchOutcome) (m : ModelInfo),
      m ∈ (fetch_models_with_retry pn o).models →
      (∃ rest, m.id = pn ++ '/' :: rest) ∧ m.owned_by = pn := by
    intro pn o m hm
    obtain ⟨raw, hraw⟩ := retryGo_mem_normalized pn o (List.range 3) m hm
    subst hraw
    exact ⟨⟨raw.id.getD (raw.model.getD []), rfl⟩, rfl⟩
  refine ⟨fun pn raw => ⟨rfl, rfl⟩, hfetch, ?_⟩
  intro provs searchIC cfg m hm
  have hjoin := mem_get_all_models_sub searchIC cfg _ m hm
  simp only [okJoin, List.filterMap_map, Function.comp] at hjoin
  rw [List.mem_flatten] at hjoin
  obtain ⟨l, hl, hml⟩ := hjoin
  simp only [List.mem_filterMap] at hl
  obtain ⟨pr, hpr, hpr2⟩ := hl
  obtain rfl : (fetch_models_with_retry pr.1 pr.2).models = l := by
    simpa using hpr2
  exact ⟨pr, hpr, hfetch pr.1 pr.2 m hml⟩

/-- A concrete raw upstream entry whose reported owner differs from the
provider that serves it. -/
def rawSample : RawModel :=
  { id := some "m1".toList, model := none, object := none, created := none,
    owned_by := some "other".toList }

/-- Witness for C8: a provider named "acme" whose upstream reports a raw
entry owned by someone else still yields a model with id "acme/m1" and
owned_by "acme" through the whole aggregation pipeline. -/
theorem C8_model_normalization_witness :
    ∃ pr ∈ [("acme".toList, fun _ : ℕ => FetchOutcome.success (some [rawSample]))],
      (∃ rest, (normalize_model "acme".toList rawSample).id = pr.1 ++ '/' :: rest) ∧
        (normalize_model "acme".toList rawSample).owned_by = pr.1 := by
  exact C8_model_normalization.2.2
    [("acme".toList, fun _ : ℕ => FetchOutcome.success (some [rawSample]))]
    (fun _ _ => none) none (normalize_model "acme".toList rawSample) (by decide)

/-- The inbound chat request envelope, restricted to the fields the core
inspects: `model`, `messages` (an opaque list), and the `stream` flag
(`body.get('stream', False)`).  All other fields are passed through
unmodified and play no role in the claims. -/
structure Envelope where
  model : Option PyStr
  messages : Option (List PyStr)
  stream : Bool
deriving DecidableEq

/-- Python truthiness of an optional string field: absent or empty is
falsy (`if not model`). -/
def optStrTruthy : Option PyStr → Bool
  | none => false
  | some s => !s.isEmpty

/-- Python truthiness of an optional list field: absent or empty is falsy
(`if not messages`). -/
def optListTruthy : Option (List PyStr) → Bool
  | none => false
  | some l => !l.isEmpty

/-- Which exception a chat-completion error result came from; each
constructor corresponds to one raise site, so the formatted error message
(elided here) is determined by it. -/
inductive ExnKind
  | httpStatus (status : ℕ)
  | sendFailure
  | declaredTooLarge (content_length max_size : ℕ)
  | bodyTooLarge (body_len max_size : ℕ)
  | jsonDecodeFailed
deriving DecidableEq

/-- The message of a structured error result, abstracted to the format
string that produced it. -/
inductive ErrMsg
  | missingParams
  | providerMsg (kind : ExnKind)
  | modelNotFoundMsg (model : PyStr)
deriving DecidableEq

/-- The `{message, type, code}` payload of a structured `{"error": ...}`
result. -/
structure ErrorBody where
  message : ErrMsg
  etype : String
  code : String
deriving DecidableEq

/-- `ProviderClient._create_error_response` (src/client.py lines 32-48)
with its default `error_type = "provider_error"`. -/
def create_error_response (kind : ExnKind) : ErrorBody :=
  { message := .providerMsg kind, etype := "provider_error",
    code := "provider_request_failed" }

/-- The invalid-request error dict returned by both chat-completion
entry points (src/client.py lines 211-217 and 425-431). -/
def invalidRequestError : ErrorBody :=
  { message := .missingParams, etype := "invalid_request", code := "invalid_request" }

/-- How consumption of the streaming generator terminates: the upstream
iterator is exhausted, an `asyncio.CancelledError` is raised into it, some
other exception is raised mid-stream, or the consumer abandons iteration
(GeneratorExit). -/
inductive IterEnd
  | exhausted
  | cancelled
  | errored
  | abandoned
deriving DecidableEq

/-- Observable events of one full run of the streaming generator: yielded
chunks, calls to `response.aclose()`, and re-raised terminal
exceptions, in order. -/
inductive GenEvent
  | yieldChunk (chunk : PyStr)
  | aclose
  | raiseCancelled
  | raiseError
  | raiseGenExit
deriving DecidableEq

/-- The `stream_generator` async generator defined inside `chat_completion`
(src/client.py lines 253-270), as the event trace of one complete
consumption: the chunks are yielded; on the terminal event the `finally`
clause calls `response.aclose()` exactly once (its own failures are
swallowed by the inner try), and then a `CancelledError`, mid-stream
exception, or `GeneratorExit` propagates (`except asyncio.CancelledError:
raise` / `except Exception: raise`; `GeneratorExit` is not an `Exception`
and is not caught). -/
def stream_generator (chunks : List PyStr) (ending : IterEnd) : List GenEvent :=
  chunks.map GenEvent.yieldChunk ++
    match ending with
    | .exhausted => [GenEvent.aclose]
    | .cancelled => [GenEvent.aclose, GenEvent.raiseCancelled]
    | .errored => [GenEvent.aclose, GenEvent.raiseError]
    | .abandoned => [GenEvent.aclose, GenEvent.raiseGenExit]

/-- An upstream HTTP response as `chat_completion` observes it: the status
code, whether "text/event-stream" occurs in the content-type header, the
declared content-length header (as a parsed number, `none` when absent or
empty), the actual body size in bytes, whether `json.loads` on the body
succeeds, and — for streaming consumption — the chunks and the terminal
event. -/
structure UpstreamResponse where
  status : ℕ
  content_type_sse : Bool
  content_length : Option ℕ
  body_len : ℕ
  json_ok : Bool
  chunks : List PyStr
  stream_end : IterEnd
deriving DecidableEq

/-- Outcome of issuing the upstream request (src/client.py lines 234-240):
either an exception before any response object exists, or a response. -/
inductive SendOutcome
  | failed
  | ok (r : UpstreamResponse)
deriving DecidableEq

/-- The result value of `ProviderClient.chat_completion`: a structured
error dict, a `{"stream_response": generator}` dict, or the parsed JSON
body (abstracted, since no claim inspects it beyond its presence). -/
inductive ChatResult
  | err (e : ErrorBody)
  | streaming
  | success
deriving DecidableEq

/-- Instrumented run of `ProviderClient.chat_completion`: the result,
whether an upstream response object was obtained, how many times the
operation's own `finally` block called `response.aclose()`
(src/client.py lines 325-333), and — when a generator was returned — the
event trace of its full consumption. -/
structure ChatTrace where
  result : ChatResult
  obtained : Bool
  finallyCloses : ℕ
  streamEvents : Option (List GenEvent)
deriving DecidableEq

/-- Reading and parsing of a buffered response body
(src/client.py lines 288-315): an actual size above `max_size` raises the
second `ValueError`, a failing `json.loads` raises `JSONDecodeError`; both
are re-raised, converted by the outer handlers to
`_create_error_response`, and the `finally` block closes the response
(`finallyCloses = 1` since a response exists and `is_stream_response` is
false); otherwise the parsed result is returned and the `finally` block
likewise closes the response. -/
def chat_read_body (max_size : ℕ) (r : UpstreamResponse) : ChatTrace :=
  if max_size < r.body_len then
    { result := .err (create_error_response (.bodyTooLarge r.body_len max_size)),
      obtained := true, finallyCloses := 1, streamEvents := none }
  else if r.json_ok = false then
    { result := .err (create_error_response .jsonDecodeFailed), obtained := true,
      finallyCloses := 1, streamEvents := none }
  else
    { result := .success, obtained := true, finallyCloses := 1, streamEvents := none }

/-- The non-streaming branch (src/client.py lines 277-298): a declared
content-length header above `max_size` raises the first `ValueError`
before the body is read (converted to `_create_error_response`, and the
response is closed by the `finally` block); otherwise the body is read and
checked by `chat_read_body`. -/
def chat_buffered (max_size : ℕ) (r : UpstreamResponse) : ChatTrace :=
  match r.content_length with
  | some cl =>
    if max_size < cl then
      { result := .err (create_error_response (.declaredTooLarge cl max_size)),
        obtained := true, finallyCloses := 1, streamEvents := none }
    else chat_read_body max_size r
  | none => chat_read_body max_size r

/-- `chat_completion` after validation (src/client.py lines 234-333): a
send failure leaves `response = None`, so the `finally` block closes
nothing; `raise_for_status` raises `httpx.HTTPStatusError` for any non-2xx
status (converted to a provider error, response closed in `finally`); if
"text/event-stream" occurs in the content-type or the request asked for
streaming, the generator is returned with `is_stream_response = True`, so
the `finally` block does not close the response and release is deferred to
the generator; otherwise the buffered branch runs. -/
def chat_completion_send (max_size : ℕ) (env : Envelope) :
    SendOutcome → ChatTrace
  | .failed =>
    { result := .err (create_error_response .sendFailure), obtained := false,
      finallyCloses := 0, streamEvents := none }
  | .ok r =>
    if ¬(200 ≤ r.status ∧ r.status < 300) then
      { result := .err (create_error_response (.httpStatus r.status)), obtained := true,
        finallyCloses := 1, streamEvents := none }
    else if r.content_type_sse = true ∨ env.stream = true then
      { result := .streaming, obtained := true, finallyCloses := 0,
        streamEvents := some (stream_generator r.chunks r.stream_end) }
    else chat_buffered max_size r

/-- `ProviderClient.chat_completion` (src/client.py lines 200-333) as a
function of the request envelope, the configured `max_response_size`, and
the upstream outcome: missing or empty `model`/`messages` returns the
invalid-request error before any request is sent (no response exists, so
the `finally` block closes nothing); otherwise the upstream call proceeds
as in `chat_completion_send`. -/
def chat_completion (max_size : ℕ) (env : Envelope) (send : SendOutcome) : ChatTrace :=
  if optStrTruthy env.model = false ∨ optListTruthy env.messages = false then
    { result := .err invalidRequestError, obtained := false, finallyCloses := 0,
      streamEvents := none }
  else chat_completion_send max_size env send

/-- Outcome of the health-check GET (src/client.py line 339): a response
with a status code, or any exception. -/
inductive HealthOutcome
  | response (status : ℕ)
  | exn
deriving DecidableEq

/-- `ProviderClient.health_check` (src/client.py lines 335-345): compares
the status code to 200 and converts every exception to `false`; it is a
total Bool-valued function, so it never raises past its boundary. -/
def health_check (o : HealthOutcome) : Bool :=
  match o with
  | .response s => s == 200
  | .exn => false

/-- `ModelManager.get_provider_client` (src/client.py lines 404-417) over
the configured provider names (the keys of `self.clients`): an empty
parsed provider name or an unknown one resolves to no client. -/
def get_provider_client (clients : List PyStr) (model : PyStr) : Option PyStr :=
  let provider_name := (parse_model_name model).1
  if provider_name.isEmpty then none
  else if clients.contains provider_name then some provider_name
  else none

/-- The result value of `ModelManager.chat_completion`: a structured error
dict of its own, or whatever the provider client returned. -/
inductive MMResult
  | err (e : ErrorBody)
  | delegated (r : ChatResult)
deriving DecidableEq

/-- Instrumented run of `ModelManager.chat_completion`: the result and the
number of upstream network calls made. -/
structure MMTrace where
  result : MMResult
  upstream_calls : ℕ
deriving DecidableEq

/-- `ModelManager.chat_completion` (src/client.py lines 419-454), the
gateway-level entry point: validate `model`/`messages`, resolve the
provider client, and delegate.  `delegate` stands for the provider
client's `chat_completion` call: its result together with the number of
upstream network calls it performs; the two error paths return before any
delegation, hence make zero upstream calls. -/
def modelNotFoundError (model : PyStr) : ErrorBody :=
  { message := .modelNotFoundMsg model, etype := "model_not_found",
    code := "model_not_found" }

def manager_chat_completion (clients : List PyStr) (env : Envelope)
    (delegate : ChatResult × ℕ) : MMTrace :=
  if optStrTruthy env.model = false ∨ optListTruthy env.messages = false then
    { result := .err invalidRequestError, upstream_calls := 0 }
  else
    match get_provider_client clients (env.model.getD []) with
    | none =>
      { result := .err (modelNotFoundError (env.model.getD [])), upstream_calls := 0 }
    | some _ => { result := .delegated delegate.1, upstream_calls := delegate.2 }

theorem stream_generator_count (chunks : List PyStr) (ending : IterEnd) :
    (stream_generator chunks ending).count GenEvent.aclose = 1 := by
  unfold stream_generator
  rw [List.count_append]
  have h0 : (chunks.map GenEvent.yieldChunk).count GenEvent.aclose = 0 := by
    rw [List.count_eq_zero]
    intro h
    simp [List.mem_map] at h
  rw [h0]
  cases ending <;> rfl

theorem chat_read_body_fields (max_size : ℕ) (r : UpstreamResponse) :
    (chat_read_body max_size r).obtained = true ∧
    (chat_read_body max_size r).finallyCloses = 1 ∧
    (chat_read_body max_size r).streamEvents = none := by
  unfold chat_read_body
  split_ifs <;> exact ⟨rfl, rfl, rfl⟩

theorem chat_buffered_fields (max_size : ℕ) (r : UpstreamResponse) :
    (chat_buffered max_size r).obtained = true ∧
    (chat_buffered max_size r).finallyCloses = 1 ∧
    (chat_buffered max_size r).streamEvents = none := by
  cases hcl : r.content_length with
  | none =>
    simp only [chat_buffered, hcl]
    exact chat_read_body_fields max_size r
  | some cl =>
    simp only [chat_buffered, hcl]
    split_ifs
    · exact ⟨rfl, rfl, rfl⟩
    · exact chat_read_body_fields max_size r

theorem chat_completion_cases (max_size : ℕ) (env : Envelope) (send : SendOutcome) :
    ((chat_completion max_size env send).obtained = false ∧
      (chat_completion max_size env send).finallyCloses = 0 ∧
      (chat_completion max_size env send).streamEvents = none ∧
      (optStrTruthy env.model = false ∨ optListTruthy env.messages = false ∨
        send = SendOutcome.failed)) ∨
    ((chat_completion max_size env send).obtained = true ∧
      (chat_completion max_size env send).finallyCloses = 1 ∧
      (chat_completion max_size env send).streamEvents = none) ∨
    (∃ r, send = SendOutcome.ok r ∧
      (chat_completion max_size env send).obtained = true ∧
      (chat_completion max_size env send).finallyCloses = 0 ∧
      (chat_completion max_size env send).streamEvents =
        some (stream_generator r.chunks r.stream_end)) := by
  unfold chat_completion
  split_ifs with hvalid
  · rcases hvalid with h | h
    · exact Or.inl ⟨rfl, rfl, rfl, Or.inl h⟩
    · exact Or.inl ⟨rfl, rfl, rfl, Or.inr (Or.inl h)⟩
  · cases send with
    | failed => exact Or.inl ⟨rfl, rfl, rfl, Or.inr (Or.inr rfl)⟩
    | ok r =>
      simp only [chat_completion_send]
      split_ifs with hst hsse
      · exact Or.inr (Or.inr ⟨r, rfl, rfl, rfl, rfl⟩)
      · exact Or.inr (Or.inl (chat_buffered_fields max_size r))
      · exact Or.inr (Or.inl ⟨rfl, rfl, rfl⟩)

/-- C1: on every run of `chat_completion` that obtains an upstream
response, the response is released exactly once: every non-streaming exit
path (success, structured error, or failure while reading) closes it in
the operation's own `finally` block exactly once; the streaming path
closes nothing in that `finally` block and instead the returned
generator's trace contains exactly one `aclose`, on the last terminal
event of any consumption (exhaustion, cancellation, mid-stream error, or
abandonment); a cancellation raised during consumption is re-raised after
the close, not swallowed; and a run that never obtains a response closes
nothing. -/
theorem C1_chat_completion_release (max_size : ℕ) (env : Envelope)
    (send : SendOutcome) :
    ((chat_completion max_size env send).obtained = false →
      (chat_completion max_size env send).finallyCloses = 0 ∧
      (chat_completion max_size env send).streamEvents = none) ∧
    ((chat_completion max_size env send).obtained = true →
      (chat_completion max_size env send).streamEvents = none →
      (chat_completion max_size env send).finallyCloses = 1) ∧
    (∀ evs, (chat_completion max_size env send).streamEvents = some evs →
      (chat_completion max_size env send).finallyCloses = 0 ∧
      evs.count GenEvent.aclose = 1) ∧
    (∀ r, send = SendOutcome.ok r → optStrTruthy env.model = true →
      optListTruthy env.messages = true →
      (chat_completion max_size env send).obtained = true) ∧
    (∀ (chunks : List PyStr) (ending : IterEnd),
      (stream_generator chunks ending).count GenEvent.aclose = 1) ∧
    (∀ chunks : List PyStr,
      stream_generator chunks IterEnd.cancelled =
        chunks.map GenEvent.yieldChunk ++ [GenEvent.aclose, GenEvent.raiseCancelled]) := by
  have h3 := chat_completion_cases max_size env send
  refine ⟨?_, ?_, ?_, ?_, stream_generator_count, fun chunks => rfl⟩
  · intro hob
    rcases h3 with ⟨_, hc, hs, _⟩ | ⟨hob2, _, _⟩ | ⟨r, _, hob2, _, _⟩
    · exact ⟨hc, hs⟩
    · rw [hob] at hob2; exact Bool.noConfusion hob2
    · rw [hob] at hob2; exact Bool.noConfusion hob2
  · intro hob hs
    rcases h3 with ⟨hob2, _, _, _⟩ | ⟨_, hc, _⟩ | ⟨r, _, _, _, hs2⟩
    · rw [hob] at hob2; exact Bool.noConfusion hob2
    · exact hc
    · rw [hs] at hs2; exact Option.noConfusion hs2
  · intro evs hs
    rcases h3 with ⟨_, _, hs2, _⟩ | ⟨_, _, hs2⟩ | ⟨r, _, _, hc, hs2⟩
    · rw [hs] at hs2; exact Option.noConfusion hs2
    · rw [hs] at hs2; exact Option.noConfusion hs2
    · refine ⟨hc, ?_⟩
      rw [hs] at hs2
      injection hs2 with hev
      rw [hev]
      exact stream_generator_count _ _
  · intro r hr h1 h2
    rcases h3 with ⟨_, _, _, hreason⟩ | ⟨hob, _, _⟩ | ⟨r', _, hob, _, _⟩
    · rcases hreason with h | h | h
      · rw [h1] at h; exact Bool.noConfusion h
      · rw [h2] at h; exact Bool.noConfusion h
      · rw [hr] at h; exact SendOutcome.noConfusion h
    · exact hob
    · exact hob

/-- A valid streaming request envelope used in witnesses. -/
def envStream : Envelope :=
  { model := some "acme/gpt".toList, messages := some ["hello".toList], stream := true }

/-- A streaming upstream response used in witnesses. -/
def respStream : UpstreamResponse :=
  { status := 200, content_type_sse := true, content_length := none, body_len := 0,
    json_ok := true, chunks := ["data: x".toList], stream_end := IterEnd.exhausted }

/-- Witness for C1: on a concrete streaming run, the operation's own
finally block closes nothing and the generator's trace closes exactly
once. -/
theorem C1_chat_completion_release_witness :
    (chat_completion 10 envStream (SendOutcome.ok respStream)).finallyCloses = 0 ∧
    (stream_generator respStream.chunks respStream.stream_end).count
      GenEvent.aclose = 1 := by
  exact (C1_chat_completion_release 10 envStream (SendOutcome.ok respStream)).2.2.1
    (stream_generator respStream.chunks respStream.stream_end) (by decide)

/-- C6: for every upstream response that reaches the non-streaming branch
(2xx status, no event-stream content type, no streaming request) whose
declared content-length header exceeds the configured max response size,
or whose actually-read body exceeds it, `chat_completion` returns a
structured provider_error result built by `_create_error_response` from
one of the two distinct size-limit `ValueError` raise sites, the response
is released exactly once by the operation's own finally block, and the
oversized body is not returned to the caller (the result is the error
record, never the success one). -/
theorem C6_oversize_response (max_size : ℕ) (env : Envelope) (r : UpstreamResponse)
    (h1 : optStrTruthy env.model = true) (h2 : optListTruthy env.messages = true)
    (hst1 : 200 ≤ r.status) (hst2 : r.status < 300)
    (hsse : r.content_type_sse = false) (hstream : env.stream = false)
    (hover : (∃ cl, r.content_length = some cl ∧ max_size < cl) ∨
      max_size < r.body_len) :
    ∃ k : ExnKind,
      chat_completion max_size env (SendOutcome.ok r) =
        { result := .err (create_error_response k), obtained := true,
          finallyCloses := 1, streamEvents := none } ∧
      ((∃ cl, k = ExnKind.declaredTooLarge cl max_size) ∨
        k = ExnKind.bodyTooLarge r.body_len max_size) ∧
      (create_error_response k).etype = "provider_error" ∧
      (create_error_response k).code = "provider_request_failed" := by
  have hval : ¬(optStrTruthy env.model = false ∨ optListTruthy env.messages = false) := by
    simp [h1, h2]
  have hcc : chat_completion max_size env (SendOutcome.ok r) =
      chat_completion_send max_size env (SendOutcome.ok r) := by
    unfold chat_completion
    rw [if_neg hval]
  have hsend : chat_completion_send max_size env (SendOutcome.ok r) =
      chat_buffered max_size r := by
    simp only [chat_completion_send]
    rw [if_neg (not_not_intro ⟨hst1, hst2⟩), if_neg (by simp [hsse, hstream])]
  rcases hover with ⟨cl, hcl, hbig⟩ | hbody
  · refine ⟨ExnKind.declaredTooLarge cl max_size, ?_, Or.inl ⟨cl, rfl⟩, rfl, rfl⟩
    rw [hcc, hsend]
    simp only [chat_buffered, hcl]
    rw [if_pos hbig]
  · cases hcl : r.content_length with
    | none =>
      refine ⟨ExnKind.bodyTooLarge r.body_len max_size, ?_, Or.inr rfl, rfl, rfl⟩
      rw [hcc, hsend]
      simp only [chat_buffered, hcl]
      unfold chat_read_body
      rw [if_pos hbody]
    | some cl =>
      by_cases hdecl : max_size < cl
      · refine ⟨ExnKind.declaredTooLarge cl max_size, ?_, Or.inl ⟨cl, rfl⟩, rfl, rfl⟩
        rw [hcc, hsend]
        simp only [chat_buffered, hcl]
        rw [if_pos hdecl]
      · refine ⟨ExnKind.bodyTooLarge r.body_len max_size, ?_, Or.inr rfl, rfl, rfl⟩
        rw [hcc, hsend]
        simp only [chat_buffered, hcl]
        rw [if_neg hdecl]
        unfold chat_read_body
        rw [if_pos hbody]

/-- A valid non-streaming request envelope used in witnesses. -/
def envBuf : Envelope :=
  { model := some "acme/gpt".toList, messages := some ["hello".toList], stream := false }

/-- A non-streaming upstream response whose declared and actual sizes both
exceed a limit of 10 bytes. -/
def respBig : UpstreamResponse :=
  { status := 200, content_type_sse := false, content_length := some 11,
    body_len := 11, json_ok := true, chunks := [], stream_end := IterEnd.exhausted }

/-- Witness for C6 at a concrete oversized response against a 10-byte
limit. -/
theorem C6_oversize_response_witness :
    ∃ k : ExnKind,
      chat_completion 10 envBuf (SendOutcome.ok respBig) =
        { result := .err (create_error_response k), obtained := true,
          finallyCloses := 1, streamEvents := none } ∧
      ((∃ cl, k = ExnKind.declaredTooLarge cl 10) ∨
        k = ExnKind.bodyTooLarge respBig.body_len 10) ∧
      (create_error_response k).etype = "provider_error" ∧
      (create_error_response k).code = "provider_request_failed" := by
  exact C6_oversize_response 10 envBuf respBig (by decide) (by decide) (by decide)
    (by decide) rfl rfl (Or.inl ⟨11, rfl, by norm_num⟩)

/-- C7 as stated is false on the code: 204 is a 2xx status, yet
`health_check` returns false, because the code tests `status_code == 200`
(src/client.py line 340), not 2xx membership. -/
theorem C7_counterexample :
    (200 ≤ 204 ∧ 204 < 300) ∧ health_check (HealthOutcome.response 204) = false :=
  ⟨by norm_num, rfl⟩

/-- C7 (amended): `health_check` is a total Bool-valued function — it
never raises past its boundary; any transport failure yields false, any
non-2xx status yields false, and a response status yields true exactly
when it is 200 (so 2xx statuses other than 200 also yield false). -/
theorem C7_health_check :
    health_check HealthOutcome.exn = false ∧
    (∀ s : ℕ, ¬(200 ≤ s ∧ s < 300) → health_check (HealthOutcome.response s) = false) ∧
    (∀ s : ℕ, health_check (HealthOutcome.response s) = true ↔ s = 200) := by
  refine ⟨rfl, ?_, ?_⟩
  · intro s hs
    have hne : s ≠ 200 := by
      rintro rfl
      exact hs (by norm_num)
    simpa [health_check] using hne
  · intro s
    simp [health_check]

/-- Witness for C7 (amended): a 503 response yields false. -/
theorem C7_health_check_witness :
    health_check (HealthOutcome.response 503) = false :=
  C7_health_check.2.1 503 (by norm_num)

/-- C4: for every envelope passed to the gateway-level
`ModelManager.chat_completion`: a missing or empty `model` or `messages`
field yields the structured invalid_request error; otherwise a missing
provider prefix or one naming no configured provider yields the structured
model_not_found error; both error paths return before the provider client
is consulted, so zero upstream network calls are made. -/
theorem C4_manager_chat_completion (clients : List PyStr) (env : Envelope)
    (d : ChatResult × ℕ) :
    ((optStrTruthy env.model = false ∨ optListTruthy env.messages = false) →
      manager_chat_completion clients env d =
        { result := .err invalidRequestError, upstream_calls := 0 } ∧
      invalidRequestError.etype = "invalid_request" ∧
      invalidRequestError.code = "invalid_request") ∧
    (∀ model, env.model = some model →
      optStrTruthy env.model = true → optListTruthy env.messages = true →
      ((parse_model_name model).1 = [] ∨
        clients.contains (parse_model_name model).1 = false) →
      manager_chat_completion clients env d =
        { result := .err (modelNotFoundError model), upstream_calls := 0 } ∧
      (modelNotFoundError model).etype = "model_not_found" ∧
      (modelNotFoundError model).code = "model_not_found") := by
  constructor
  · intro h
    refine ⟨?_, rfl, rfl⟩
    unfold manager_chat_completion
    rw [if_pos h]
  · intro model hm h1 h2 hroute
    have hnone : get_provider_client clients model = none := by
      unfold get_provider_client
      by_cases he : ((parse_model_name model).1).isEmpty
      · rw [if_pos he]
      · rw [if_neg he]
        rcases hroute with h | h
        · exact absurd (by simp [h]) he
        · rw [if_neg (by simpa using h)]
    refine ⟨?_, rfl, rfl⟩
    unfold manager_chat_completion
    rw [if_neg (by simp [h1, h2]), hm]
    simp [hnone]

/-- Witness for C4: with one configured provider "acme", a request for
"unknown/x" yields the model_not_found error with zero upstream calls,
even though the delegate would have made 5; an empty envelope yields the
invalid_request error with zero upstream calls. -/
theorem C4_manager_chat_completion_witness :
    manager_chat_completion ["acme".toList]
        { model := some "unknown/x".toList, messages := some ["hi".toList],
          stream := false }
        (ChatResult.success, 5) =
      { result := .err (modelNotFoundError "unknown/x".toList), upstream_calls := 0 } ∧
    manager_chat_completion ["acme".toList]
        { model := none, messages := some ["hi".toList], stream := false }
        (ChatResult.success, 5) =
      { result := .err invalidRequestError, upstream_calls := 0 } := by
  constructor
  · exact ((C4_manager_chat_completion ["acme".toList]
      { model := some "unknown/x".toList, messages := some ["hi".toList], stream := false }
      (ChatResult.success, 5)).2 "unknown/x".toList rfl (by decide) (by decide)
      (Or.inr (by decide))).1
  · exact ((C4_manager_chat_completion ["acme".toList]
      { model := none, messages := some ["hi".toList], stream := false }
      (ChatResult.success, 5)).1 (Or.inl rfl)).1

end AIProxy
